import Mathlib

set_option maxRecDepth 8192

/-!
# twitch_webhook — formal verification of the webhook pipeline

A shallow embedding in Lean 4 of the Twitch EventSub webhook handler of
this repository, together with proofs of the specified properties.

The repository contains two near-duplicate variants of the handler module:

* `src/src/webhook_handler.ts` — embedded below in namespace
  `WebhookHandler`.  Its `verifyMessage` wraps `crypto.timingSafeEqual`
  in a try/catch, and its message-type switch has cases `notification`,
  `webhook_callback_verification` and a default.
* the unnamed variant (`src/unnamed/part_000`) — embedded in namespace
  `Part000`.  Its switch additionally has a `revocation` case returning
  status 204, and its `verifyMessage` calls `crypto.timingSafeEqual`
  without a catch, so a length mismatch propagates as an exception.

External runtime facilities (Node `crypto`, `JSON.parse`,
`JSON.stringify`, `Buffer.from`) are not code of this repository; they
are modelled concretely below from their standard documented behaviour,
so that every definition is executable.

Conventions of the embedding:

* JavaScript strings are Lean `String`s; `Buffer.from(s)` is the UTF-8
  byte list `utf8Bytes s` (bytes are `Nat` below 256).
* JavaScript runtime exceptions are `Except JsError`; a thrown
  `TypeError` (property access on `undefined`/`null`) or `RangeError`
  (from `timingSafeEqual`) is an `Except.error`.
* The asynchronous handler functions registered by users are identified
  by numeric ids; invoking them is recorded in an invocation log (they
  are modelled as non-throwing — handler-raised exceptions are outside
  the claims below).  The process-global registry `eventHandlers` is
  passed explicitly as a `RegistryState`; JavaScript `Set` objects are
  heap cells so that the aliasing captured by `on`'s returned closure is
  modelled faithfully.
-/

/-! ## Bytes, UTF-8 and hex -/

/-- UTF-8 encoding of one code point (a Lean `Char` is a valid Unicode
scalar value, hence below `1114112` and outside the surrogate range). -/
def encodeChar (c : Char) : List Nat :=
  let n := c.toNat
  if n < 128 then [n]
  else if n < 2048 then [192 + n / 64, 128 + n % 64]
  else if n < 65536 then [224 + n / 4096, 128 + (n / 64) % 64, 128 + n % 64]
  else [240 + n / 262144, 128 + (n / 4096) % 64, 128 + (n / 64) % 64, 128 + n % 64]

/-- Modelled from the spec: `Buffer.from(string)` — the UTF-8 bytes of a
string (the runtime's encoder, not code of this repository). -/
def utf8Bytes (s : String) : List Nat :=
  s.data.flatMap encodeChar

/-- Lowercase hexadecimal digit. -/
def hexDigit (n : Nat) : Char :=
  if n < 10 then Char.ofNat (48 + n) else Char.ofNat (87 + n)

/-- Lowercase hexadecimal rendering of a byte list (two digits a byte). -/
def toHex (bs : List Nat) : String :=
  ⟨bs.flatMap fun b => [hexDigit (b / 16), hexDigit (b % 16)]⟩

/-! ## SHA-256 and HMAC (model of Node `crypto`)

`crypto.createHmac('sha256', secret).update(message).digest('hex')` is
runtime library code, not code of this repository; it is modelled here
by a direct implementation of FIPS 180-4 SHA-256 and RFC 2104 HMAC over
`Nat` words reduced modulo `2^32`. -/

namespace Sha256

def wordMod : Nat := 4294967296

/-- Right rotation of a 32-bit word. -/
def rotr (n x : Nat) : Nat :=
  ((x >>> n) ||| (x <<< (32 - n))) % wordMod

def shr (n x : Nat) : Nat := x >>> n

def bigSigma0 (x : Nat) : Nat := rotr 2 x ^^^ rotr 13 x ^^^ rotr 22 x
def bigSigma1 (x : Nat) : Nat := rotr 6 x ^^^ rotr 11 x ^^^ rotr 25 x
def smallSigma0 (x : Nat) : Nat := rotr 7 x ^^^ rotr 18 x ^^^ shr 3 x
def smallSigma1 (x : Nat) : Nat := rotr 17 x ^^^ rotr 19 x ^^^ shr 10 x

def ch (x y z : Nat) : Nat := (x &&& y) ^^^ ((x ^^^ (wordMod - 1)) &&& z)
def maj (x y z : Nat) : Nat := (x &&& y) ^^^ (x &&& z) ^^^ (y &&& z)

/-- The 64 round constants. -/
def K : List Nat :=
  [1116352408, 1899447441, 3049323471, 3921009573, 961987163, 1508970993, 2453635748, 2870763221,
   3624381080, 310598401, 607225278, 1426881987, 1925078388, 2162078206, 2614888103, 3248222580,
   3835390401, 4022224774, 264347078, 604807628, 770255983, 1249150122, 1555081692, 1996064986,
   2554220882, 2821834349, 2952996808, 3210313671, 3336571891, 3584528711, 113926993, 338241895,
   666307205, 773529912, 1294757372, 1396182291, 1695183700, 1986661051, 2177026350, 2456956037,
   2730485921, 2820302411, 3259730800, 3345764771, 3516065817, 3600352804, 4094571909, 275423344,
   430227734, 506948616, 659060556, 883997877, 958139571, 1322822218, 1537002063, 1747873779,
   1955562222, 2024104815, 2227730452, 2361852424, 2428436474, 2756734187, 3204031479, 3329325298]

/-- Initial hash value. -/
def H0 : List Nat :=
  [1779033703, 3144134277, 1013904242, 2773480762, 1359893119, 2600822924, 528734635, 1541459225]

/-- Big-endian bytes of `n`, `k` bytes wide. -/
def beBytes (k n : Nat) : List Nat :=
  match k with
  | 0 => []
  | k + 1 => beBytes k (n / 256) ++ [n % 256]

/-- Message padding: a `128` byte, zeros to 56 mod 64, then the 64-bit
big-endian bit length. -/
def pad (msg : List Nat) : List Nat :=
  let zeros := (119 - msg.length % 64) % 64
  msg ++ [128] ++ List.replicate zeros 0 ++ beBytes 8 (8 * msg.length)

/-- Split into 64-byte blocks (fuel-recursive so that it reduces in the
kernel; the fuel `l.length` always suffices). -/
def toBlocksAux : Nat → List Nat → List (List Nat)
  | 0, _ => []
  | _, [] => []
  | fuel + 1, l => l.take 64 :: toBlocksAux fuel (l.drop 64)

def toBlocks (l : List Nat) : List (List Nat) :=
  toBlocksAux l.length l

/-- A 32-bit word from four big-endian bytes. -/
def word4 : List Nat → Nat
  | b0 :: b1 :: b2 :: b3 :: _ => ((b0 * 256 + b1) * 256 + b2) * 256 + b3
  | _ => 0

/-- The sixteen initial schedule words of a block. -/
def initialW (block : List Nat) : List Nat :=
  (List.range 16).map fun i => word4 (block.drop (4 * i))

/-- Extend the message schedule to 64 words. -/
def extendW (w : List Nat) (rounds : Nat) : List Nat :=
  match rounds with
  | 0 => w
  | r + 1 =>
      let t := w.length
      let next := (smallSigma1 (w.getD (t - 2) 0) + w.getD (t - 7) 0 +
        smallSigma0 (w.getD (t - 15) 0) + w.getD (t - 16) 0) % wordMod
      extendW (w ++ [next]) r

/-- One compression round. -/
def round (st : List Nat) (kw : Nat × Nat) : List Nat :=
  match st with
  | [a, b, c, d, e, f, g, h] =>
      let t1 := (h + bigSigma1 e + ch e f g + kw.1 + kw.2) % wordMod
      let t2 := (bigSigma0 a + maj a b c) % wordMod
      [(t1 + t2) % wordMod, a, b, c, (d + t1) % wordMod, e, f, g]
  | st => st

/-- Compress one 64-byte block into the running hash state. -/
def compress (h : List Nat) (block : List Nat) : List Nat :=
  let w := extendW (initialW block) 48
  let out := (K.zip w).foldl (fun st kw => round st kw) h
  (h.zip out).map fun p => (p.1 + p.2) % wordMod

/-- SHA-256 of a byte list, as 32 bytes. -/
def sha256 (msg : List Nat) : List Nat :=
  ((toBlocks (pad msg)).foldl compress H0).flatMap (beBytes 4)

end Sha256

/-- RFC 2104 HMAC-SHA256 over byte lists. -/
def hmacSha256 (key msg : List Nat) : List Nat :=
  let key' := if key.length > 64 then Sha256.sha256 key else key
  let key0 := key' ++ List.replicate (64 - key'.length) 0
  let ipad := key0.map (· ^^^ 54)
  let opad := key0.map (· ^^^ 92)
  Sha256.sha256 (opad ++ Sha256.sha256 (ipad ++ msg))

/-! ## JavaScript values, JSON, and runtime errors -/

/-- A JSON value (`JSON.parse` output).  Numbers are modelled as exact
rationals; IEEE-754 rounding of the runtime's number type is not
modelled (no claim below depends on it). -/
inductive Json where
  | null
  | bool (b : Bool)
  | num (q : Rat)
  | str (s : String)
  | arr (elems : List Json)
  | obj (fields : List (String × Json))

/-- A JavaScript runtime value as far as the handler observes one:
either `undefined` or a JSON value. -/
inductive JsValue where
  | undefined
  | json (j : Json)

/-- The runtime exceptions the handler can run into. -/
inductive JsError where
  /-- property access on `undefined` or `null` -/
  | typeError
  /-- thrown by `crypto.timingSafeEqual` on buffers of different length -/
  | rangeError
deriving DecidableEq

/-- Modelled from the spec: JavaScript property access `v[k]` on the
parsed (`any`-typed) body.  Reading a property of `undefined` or `null`
throws a `TypeError`; objects yield the field or `undefined`; primitive
and array values yield `undefined` for the property names the handler
uses (none of them is an own property such as `length`). -/
def getProp : JsValue → String → Except JsError JsValue
  | .undefined, _ => .error .typeError
  | .json .null, _ => .error .typeError
  | .json (.obj fields), k =>
      .ok (match fields.reverse.lookup k with
        | some v => .json v
        | none => .undefined)
  | .json _, _ => .ok .undefined

/-- Modelled from the spec: JavaScript truthiness of a value the parsed
body can contain (`undefined`, `null`, `false`, `0`, `""` are falsy). -/
def truthy : JsValue → Bool
  | .undefined => false
  | .json .null => false
  | .json (.bool b) => b
  | .json (.num q) => q ≠ 0
  | .json (.str s) => s ≠ ""
  | .json (.arr _) => true
  | .json (.obj _) => true

/-- Modelled from the spec: `ToPropertyKey` coercion used by
`eventType in handlers` and `handlers[eventType]` — strings pass
through, `undefined` becomes `"undefined"`.  (Number-to-string of a
non-integral runtime number is IEEE-754-dependent and not modelled; no
claim depends on it.) -/
def toPropertyKey : JsValue → String
  | .json (.str s) => s
  | .undefined => "undefined"
  | .json .null => "null"
  | .json (.bool true) => "true"
  | .json (.bool false) => "false"
  | .json (.num q) => if q.den = 1 then toString q.num else toString q
  | .json (.arr _) => ""
  | .json (.obj _) => "[object Object]"

/-- Modelled from the spec: the escaping `JSON.stringify` applies inside
a string literal. -/
def jsonEscapeChar (c : Char) : List Char :=
  if c = '"' then ['\\', '"']
  else if c = '\\' then ['\\', '\\']
  else if c = '\n' then ['\\', 'n']
  else if c = '\r' then ['\\', 'r']
  else if c = '\t' then ['\\', 't']
  else if c.toNat = 8 then ['\\', 'b']
  else if c.toNat = 12 then ['\\', 'f']
  else if c.toNat < 32 then
    ['\\', 'u', '0', '0', hexDigit (c.toNat / 16), hexDigit (c.toNat % 16)]
  else [c]

/-- Modelled from the spec: `JSON.stringify({ error: msg })`, the shape
of every error body the handler produces. -/
def stringifyError (msg : String) : String :=
  ⟨"\x7b\"error\":\"".data ++ msg.data.flatMap jsonEscapeChar ++ "\"\x7d".data⟩

/-! ## `JSON.parse` (model of the runtime parser)

Modelled from the spec: "JSON parsing/serialization (assumed correct,
provided by the runtime)".  A strict recursive-descent parser for the
JSON grammar, fuel-recursive so that it reduces in the kernel.  It
returns `none` exactly where `JSON.parse` would throw a `SyntaxError`
(which the handler catches and maps to a 400 response). -/

def isJsonWs (c : Char) : Bool :=
  c = ' ' || c = '\t' || c = '\n' || c = '\r'

def skipWs : List Char → List Char
  | [] => []
  | c :: r => if isJsonWs c then skipWs r else c :: r

def isDigitChar (c : Char) : Bool :=
  48 ≤ c.toNat && c.toNat ≤ 57

def hexVal (c : Char) : Option Nat :=
  if 48 ≤ c.toNat && c.toNat ≤ 57 then some (c.toNat - 48)
  else if 97 ≤ c.toNat && c.toNat ≤ 102 then some (c.toNat - 87)
  else if 65 ≤ c.toNat && c.toNat ≤ 70 then some (c.toNat - 55)
  else none

/-- The content of a string literal after the opening quote; returns the
decoded characters and the input after the closing quote. -/
def parseStringBody : Nat → List Char → Option (List Char × List Char)
  | 0, _ => none
  | _, [] => none
  | fuel + 1, c :: r =>
    if c = '"' then some ([], r)
    else if c = '\\' then
      match r with
      | [] => none
      | e :: r2 =>
        if e = '"' then (parseStringBody fuel r2).map fun p => ('"' :: p.1, p.2)
        else if e = '\\' then (parseStringBody fuel r2).map fun p => ('\\' :: p.1, p.2)
        else if e = '/' then (parseStringBody fuel r2).map fun p => ('/' :: p.1, p.2)
        else if e = 'n' then (parseStringBody fuel r2).map fun p => ('\n' :: p.1, p.2)
        else if e = 't' then (parseStringBody fuel r2).map fun p => ('\t' :: p.1, p.2)
        else if e = 'r' then (parseStringBody fuel r2).map fun p => ('\r' :: p.1, p.2)
        else if e = 'b' then (parseStringBody fuel r2).map fun p => (Char.ofNat 8 :: p.1, p.2)
        else if e = 'f' then (parseStringBody fuel r2).map fun p => (Char.ofNat 12 :: p.1, p.2)
        else if e = 'u' then
          match r2 with
          | h1 :: h2 :: h3 :: h4 :: r3 =>
            match hexVal h1, hexVal h2, hexVal h3, hexVal h4 with
            | some v1, some v2, some v3, some v4 =>
                (parseStringBody fuel r3).map fun p =>
                  (Char.ofNat (((v1 * 16 + v2) * 16 + v3) * 16 + v4) :: p.1, p.2)
            | _, _, _, _ => none
          | _ => none
        else none
    else if c.toNat < 32 then none
    else (parseStringBody fuel r).map fun p => (c :: p.1, p.2)

def takeDigits (l : List Char) : List Char × List Char :=
  match l with
  | [] => ([], [])
  | c :: r =>
    if isDigitChar c then
      let (ds, rest) := takeDigits r
      (c :: ds, rest)
    else ([], l)

def digitsToNat (ds : List Char) : Nat :=
  ds.foldl (fun acc c => acc * 10 + (c.toNat - 48)) 0

/-- Optional fraction part (after the integer digits). -/
def parseFrac : List Char → Option (List Char × List Char)
  | '.' :: r =>
    match takeDigits r with
    | ([], _) => none
    | (ds, rest) => some (ds, rest)
  | l => some ([], l)

/-- Optional exponent part. -/
def parseExp (l : List Char) : Option (Int × List Char) :=
  match l with
  | c :: r =>
    if c = 'e' || c = 'E' then
      let (sgn, r1) : Int × List Char :=
        match r with
        | '+' :: r2 => (1, r2)
        | '-' :: r2 => (-1, r2)
        | _ => (1, r)
      match takeDigits r1 with
      | ([], _) => none
      | (ds, rest) => some (sgn * digitsToNat ds, rest)
    else some (0, l)
  | [] => some (0, [])

def parseNumber (l : List Char) : Option (Rat × List Char) :=
  let (neg, l1) : Bool × List Char :=
    match l with
    | '-' :: r => (true, r)
    | _ => (false, l)
  match takeDigits l1 with
  | ([], _) => none
  | (ds, r1) =>
    if ds.length > 1 && ds.headD '0' = '0' then none
    else
      match parseFrac r1 with
      | none => none
      | some (fds, r2) =>
        match parseExp r2 with
        | none => none
        | some (ex, r3) =>
          let mant : Int := (digitsToNat ds * 10 ^ fds.length + digitsToNat fds : Nat)
          let mant : Int := if neg then -mant else mant
          some (mkRat (mant * 10 ^ ex.toNat) (10 ^ (fds.length + (-ex).toNat)), r3)

mutual

def parseValue : Nat → List Char → Option (Json × List Char)
  | 0, _ => none
  | fuel + 1, l =>
    match skipWs l with
    | [] => none
    | c :: r =>
      if c = '"' then (parseStringBody (fuel + 1) r).map fun p => (.str ⟨p.1⟩, p.2)
      else if c = 't' then
        match r with
        | 'r' :: 'u' :: 'e' :: rest => some (.bool true, rest)
        | _ => none
      else if c = 'f' then
        match r with
        | 'a' :: 'l' :: 's' :: 'e' :: rest => some (.bool false, rest)
        | _ => none
      else if c = 'n' then
        match r with
        | 'u' :: 'l' :: 'l' :: rest => some (.null, rest)
        | _ => none
      else if c = '\x7b' then
        match skipWs r with
        | '\x7d' :: rest => some (.obj [], rest)
        | l2 => (parseMembers fuel l2).map fun p => (.obj p.1, p.2)
      else if c = '[' then
        match skipWs r with
        | ']' :: rest => some (.arr [], rest)
        | l2 => (parseElements fuel l2).map fun p => (.arr p.1, p.2)
      else (parseNumber (c :: r)).map fun p => (.num p.1, p.2)

/-- One or more `"key": value` members, ending at `\x7d`. -/
def parseMembers : Nat → List Char → Option (List (String × Json) × List Char)
  | 0, _ => none
  | fuel + 1, l =>
    match l with
    | '"' :: r =>
      match parseStringBody (fuel + 1) r with
      | none => none
      | some (key, r1) =>
        match skipWs r1 with
        | ':' :: r2 =>
          match parseValue fuel r2 with
          | none => none
          | some (v, r3) =>
            match skipWs r3 with
            | ',' :: r4 =>
                (parseMembers fuel (skipWs r4)).map fun p => ((⟨key⟩, v) :: p.1, p.2)
            | '\x7d' :: r4 => some ([(⟨key⟩, v)], r4)
            | _ => none
        | _ => none
    | _ => none

/-- One or more array elements, ending at `]`. -/
def parseElements : Nat → List Char → Option (List Json × List Char)
  | 0, _ => none
  | fuel + 1, l =>
    match parseValue fuel l with
    | none => none
    | some (v, r) =>
      match skipWs r with
      | ',' :: r1 => (parseElements fuel r1).map fun p => (v :: p.1, p.2)
      | ']' :: r1 => some ([v], r1)
      | _ => none

end

/-- Modelled from the spec: `JSON.parse` — `some` on the values it
returns, `none` where it throws a `SyntaxError`. -/
def jsonParse (s : String) : Option Json :=
  match parseValue (s.length + 1) s.data with
  | some (j, rest) => if skipWs rest = [] then some j else none
  | none => none

/-! ## The handler registry (`eventHandlers`)

`webhook_handler.ts` keeps a module-global
`Map<eventType, Set<handler>>`.  The `Map` is `RegistryState.map`
(association list, unique keys, insertion-ordered); each `Set` object is
a heap cell in `RegistryState.heap` addressed by its allocation index,
because the closure returned by `on` captures the `Set` *object*, which
survives the key being deleted from (and later re-created in) the map.
Handlers are identified by `Nat` ids (JavaScript function identity).
This registry code is line-for-line identical in both variants of the
module. -/

structure RegistryState where
  /-- every `Set` object ever created, in allocation order -/
  heap : List (List Nat)
  /-- the `Map`: event type → index of its `Set` in `heap` -/
  map : List (String × Nat)
deriving DecidableEq

def RegistryState.empty : RegistryState := ⟨[], []⟩

def mapHas (m : List (String × Nat)) (k : String) : Bool :=
  m.any (·.1 == k)

def mapLookup (m : List (String × Nat)) (k : String) : Option Nat :=
  (m.find? (·.1 == k)).map (·.2)

/-- JS `Map.set`: update in place if the key exists, else append. -/
def mapSet (m : List (String × Nat)) (k : String) (r : Nat) : List (String × Nat) :=
  if mapHas m k then m.map fun p => if p.1 == k then (k, r) else p
  else m ++ [(k, r)]

/-- JS `Map.delete`. -/
def mapDelete (m : List (String × Nat)) (k : String) : List (String × Nat) :=
  m.filter fun p => !(p.1 == k)

def heapGet (h : List (List Nat)) (r : Nat) : List Nat :=
  h.getD r []

/-- JS `Set.add`: a no-op when the element is already present. -/
def setAdd (s : List Nat) (x : Nat) : List Nat :=
  if x ∈ s then s else s ++ [x]

/-- The environment of the closure `on` returns: the captured `Set`
object (`ref`), and the captured `eventType` and `handler`. -/
structure Unsubscriber where
  ref : Nat
  key : String
  handler : Nat
deriving DecidableEq

/-- `on(eventType, handler)`: create the key's `Set` if absent, add the
handler, and return the unsubscribe closure.  (The `none` arm of the
inner match is unreachable: the set was just created if it was absent —
the source uses `eventHandlers.get(eventType)!`.) -/
def «on» (st : RegistryState) (eventType : String) (handler : Nat) :
    RegistryState × Unsubscriber :=
  let st' : RegistryState :=
    if mapHas st.map eventType then st
    else { heap := st.heap ++ [[]], map := mapSet st.map eventType st.heap.length }
  match mapLookup st'.map eventType with
  | some r =>
      ({ st' with heap := st'.heap.set r (setAdd (heapGet st'.heap r) handler) },
       ⟨r, eventType, handler⟩)
  | none => (st', ⟨0, eventType, handler⟩)

/-- The body of the closure `on` returns: `handlers.delete(handler)`,
then `eventHandlers.delete(eventType)` if the captured set is empty. -/
def unsubscribe (st : RegistryState) (u : Unsubscriber) : RegistryState :=
  let s' := (heapGet st.heap u.ref).erase u.handler
  let heap' := st.heap.set u.ref s'
  if s'.length = 0 then { heap := heap', map := mapDelete st.map u.key }
  else { heap := heap', map := st.map }

/-- Alias (`export const subscribe = on`). -/
def subscribe := «on»

/-- Contents of `eventHandlers.get(k)` (an absent key and an empty set
both dispatch to nobody). -/
def RegistryState.get (reg : RegistryState) (k : String) : List Nat :=
  match mapLookup reg.map k with
  | some r => heapGet reg.heap r
  | none => []

/-- `eventHandlers.get(eventType)` where `eventType` came out of the
parsed body: `Map` keys are compared with SameValueZero, and every key
in this map is a string, so a non-string lookup value matches nothing. -/
def RegistryState.getV (reg : RegistryState) (v : JsValue) : List Nat :=
  match v with
  | .json (.str s) => reg.get s
  | _ => []

/-! ## Requests, options, results -/

/-- The inbound `Request` as far as the handler reads it: its header
list and its body text (`await request.text()`). -/
structure TwitchRequest where
  headers : List (String × String)
  body : String

/-- `request.headers.get(name)`; the four names the handler asks for
are lowercase and the claims use them verbatim, so the case-insensitive
folding of the runtime's `Headers` is not modelled. -/
def headersGet (hs : List (String × String)) (name : String) : Option String :=
  (hs.find? (·.1 == name)).map (·.2)

/-- JS falsiness of `headers.get(...)`: `null` (absent) or `""`. -/
def falsy : Option String → Bool
  | none => true
  | some s => s == ""

/-- The per-call handlers passed in `options.handlers`, keyed by event
type, plus the `onUnknownEvent` fallback.  (A notification whose event
type is the literal string `"onUnknownEvent"` would, in JS, find the
fallback via `eventType in handlers`; that corner is not modelled and no
claim touches it.) -/
structure TwitchWebhookHandlers where
  entries : List (String × Nat) := []
  onUnknownEvent : Option Nat := none
deriving DecidableEq

structure TwitchWebhookOptions where
  secret : String
  handlers : TwitchWebhookHandlers := {}
deriving DecidableEq

/-- The result record (`{ status, headers?, body? }`).  `body` holds a
`JsValue` because the verification branch stores the raw `challenge`
value, whatever it is; everywhere else it is a string. -/
structure TwitchWebhookResult where
  status : Nat
  headers : List (String × String) := []
  body : Option JsValue := none

/-- `JSON.stringify({ error: msg })` wrapped as a result body. -/
def errorBody (msg : String) : Option JsValue :=
  some (.json (.str (stringifyError msg)))

/-- One handler invocation performed while processing a notification:
from the direct `options.handlers` map, the `onUnknownEvent` fallback,
or the global registry. -/
inductive Invocation where
  | direct (h : Nat)
  | unknownEvent (h : Nat)
  | registry (h : Nat)
deriving DecidableEq

/-! ## Signature verification -/

/-- Modelled from the spec: Node `crypto.timingSafeEqual` — throws a
`RangeError` when the byte lengths differ, otherwise equality.  (Its
timing behaviour is a real-time property with no shallow embedding; its
value behaviour is total equality.) -/
def timingSafeEqual (a b : List Nat) : Except JsError Bool :=
  if a.length = b.length then .ok (a == b) else .error .rangeError

/-- `getHmac(secret, message)` — lowercase hex HMAC-SHA256 (identical in
both variants of the module). -/
def getHmac (secret message : String) : String :=
  toHex (hmacSha256 (utf8Bytes secret) (utf8Bytes message))

/-! ## The message-type switch

The bodies of the switch cases are identical in both variants of the
module (the unnamed variant merely has one extra case); they are factored
out here so that both embeddings share them verbatim. -/

/-- The `case 'notification'` body: read
`notification.subscription.type` (each step can throw a `TypeError`),
then invoke the direct handler or the unknown-event fallback, the
registry handlers for the exact event type, and the wildcard handlers. -/
def notificationCase (eventHandlers : RegistryState) (handlers : TwitchWebhookHandlers)
    (bodyJson : Json) : Except JsError (TwitchWebhookResult × List Invocation) := do
  let sub ← getProp (.json bodyJson) "subscription"
  let eventType ← getProp sub "type"
  let key := toPropertyKey eventType
  let direct : List Invocation :=
    match handlers.entries.lookup key with
    | some h => [.direct h]
    | none => []
  let unknownInv : List Invocation :=
    if (handlers.entries.lookup key).isNone then
      match handlers.onUnknownEvent with
      | some h => [.unknownEvent h]
      | none => []
    else []
  let specific := (eventHandlers.getV eventType).map Invocation.registry
  let wild := (eventHandlers.get "*").map Invocation.registry
  pure ({ status := 204 }, direct ++ unknownInv ++ specific ++ wild)

/-- The `case 'webhook_callback_verification'` body: read
`bodyJson.challenge` (throws on a `null` body), 400 when it is falsy,
else echo it with status 200 as `text/plain`. -/
def verificationCase (bodyJson : Json) :
    Except JsError (TwitchWebhookResult × List Invocation) := do
  let challenge ← getProp (.json bodyJson) "challenge"
  if !truthy challenge then
    pure ({ status := 400,
            body := errorBody "Missing challenge in verification request" }, [])
  else
    pure ({ status := 200, headers := [("content-type", "text/plain")],
            body := some challenge }, [])

namespace WebhookHandler

/-- `verifyMessage` of `src/src/webhook_handler.ts`: the comparison is
wrapped in try/catch, so a length mismatch returns `false`. -/
def verifyMessage (hmac verifySignature : String) : Bool :=
  match timingSafeEqual (utf8Bytes hmac) (utf8Bytes verifySignature) with
  | .ok b => b
  | .error _ => false

/-- The message-type switch of `src/src/webhook_handler.ts`:
`notification`, `webhook_callback_verification`, default.  (No
`revocation` case: that string falls through to the default.) -/
def messageSwitch (eventHandlers : RegistryState) (handlers : TwitchWebhookHandlers)
    (bodyJson : Json) (messageType : String) :
    Except JsError (TwitchWebhookResult × List Invocation) :=
  match messageType with
  | "notification" => notificationCase eventHandlers handlers bodyJson
  | "webhook_callback_verification" => verificationCase bodyJson
  | mt => .ok ({ status := 400, body := errorBody ("Invalid message type: " ++ mt) }, [])

/-- `handleTwitchWebhook` of `src/src/webhook_handler.ts`.  Returns the
result record together with the list of handler invocations performed;
a JS runtime exception is `Except.error`. -/
def handleTwitchWebhook (eventHandlers : RegistryState) (request : TwitchRequest)
    (options : TwitchWebhookOptions) :
    Except JsError (TwitchWebhookResult × List Invocation) :=
  let secret := options.secret
  let handlers := options.handlers
  let messageId := headersGet request.headers "twitch-eventsub-message-id"
  let timestamp := headersGet request.headers "twitch-eventsub-message-timestamp"
  let signature := headersGet request.headers "twitch-eventsub-message-signature"
  let messageType := headersGet request.headers "twitch-eventsub-message-type"
  if falsy messageId || falsy timestamp then
    .ok ({ status := 400,
           body := errorBody "Missing required headers \"twitch-eventsub-message-id\" or \"twitch-eventsub-message-timestamp\"" }, [])
  else if falsy signature then
    .ok ({ status := 400,
           body := errorBody "Missing required header \"twitch-eventsub-message-signature\"" }, [])
  else if falsy messageType then
    .ok ({ status := 400,
           body := errorBody "Missing required header \"twitch-eventsub-message-type\"" }, [])
  else
    match jsonParse request.body with
    | none => .ok ({ status := 400, body := errorBody "Invalid JSON body" }, [])
    | some bodyJson =>
      let message := messageId.getD "" ++ timestamp.getD "" ++ request.body
      let hmac := "sha256=" ++ getHmac secret message
      if !verifyMessage hmac (signature.getD "") then
        .ok ({ status := 401, body := errorBody "Invalid signature" }, [])
      else
        messageSwitch eventHandlers handlers bodyJson (messageType.getD "")

end WebhookHandler

namespace Part000

/-- `verifyMessage` of the unnamed variant: no try/catch, so the
`RangeError` of a length mismatch propagates. -/
def verifyMessage (hmac verifySignature : String) : Except JsError Bool :=
  timingSafeEqual (utf8Bytes hmac) (utf8Bytes verifySignature)

/-- The message-type switch of the unnamed variant: as the named one's
plus a `revocation` case that returns 204 unconditionally (after
`console.error(bodyJson)`, which has no modelled effect). -/
def messageSwitch (eventHandlers : RegistryState) (handlers : TwitchWebhookHandlers)
    (bodyJson : Json) (messageType : String) :
    Except JsError (TwitchWebhookResult × List Invocation) :=
  match messageType with
  | "notification" => notificationCase eventHandlers handlers bodyJson
  | "webhook_callback_verification" => verificationCase bodyJson
  | "revocation" => .ok ({ status := 204 }, [])
  | mt => .ok ({ status := 400, body := errorBody ("Invalid message type: " ++ mt) }, [])

/-- `handleTwitchWebhook` of the unnamed variant (`src/unnamed/part_000`):
identical to the named one except that `verifyMessage` can throw and
that the switch has a `revocation` case. -/
def handleTwitchWebhook (eventHandlers : RegistryState) (request : TwitchRequest)
    (options : TwitchWebhookOptions) :
    Except JsError (TwitchWebhookResult × List Invocation) :=
  let secret := options.secret
  let handlers := options.handlers
  let messageId := headersGet request.headers "twitch-eventsub-message-id"
  let timestamp := headersGet request.headers "twitch-eventsub-message-timestamp"
  let signature := headersGet request.headers "twitch-eventsub-message-signature"
  let messageType := headersGet request.headers "twitch-eventsub-message-type"
  if falsy messageId || falsy timestamp then
    .ok ({ status := 400,
           body := errorBody "Missing required headers \"twitch-eventsub-message-id\" or \"twitch-eventsub-message-timestamp\"" }, [])
  else if falsy signature then
    .ok ({ status := 400,
           body := errorBody "Missing required header \"twitch-eventsub-message-signature\"" }, [])
  else if falsy messageType then
    .ok ({ status := 400,
           body := errorBody "Missing required header \"twitch-eventsub-message-type\"" }, [])
  else
    match jsonParse request.body with
    | none => .ok ({ status := 400, body := errorBody "Invalid JSON body" }, [])
    | some bodyJson => do
      let message := messageId.getD "" ++ timestamp.getD "" ++ request.body
      let hmac := "sha256=" ++ getHmac secret message
      let ok ← verifyMessage hmac (signature.getD "")
      if !ok then
        pure ({ status := 401, body := errorBody "Invalid signature" }, [])
      else
        messageSwitch eventHandlers handlers bodyJson (messageType.getD "")

end Part000

/-! ## Concrete requests used by the witnesses and counterexamples -/

/-- The C3 counterexample request: notification type, valid signature,
raw body `"\x7b\x7d"` (the empty JSON object). -/
def reqC3bad : TwitchRequest :=
  { headers := [("twitch-eventsub-message-id", "id1"),
                ("twitch-eventsub-message-timestamp", "ts1"),
                ("twitch-eventsub-message-signature",
                  "sha256=" ++ getHmac "sec" ("id1" ++ "ts1" ++ "\x7b\x7d")),
                ("twitch-eventsub-message-type", "notification")],
    body := "\x7b\x7d" }

/-- The C8 counterexample request: `webhook_callback_verification` with
a valid signature and body `\x7b"challenge": ""\x7d` — the challenge is
present and is a string. -/
def reqC8bad : TwitchRequest :=
  { headers := [("twitch-eventsub-message-id", "id1"),
                ("twitch-eventsub-message-timestamp", "ts1"),
                ("twitch-eventsub-message-signature",
                  "sha256=" ++ getHmac "sec" ("id1" ++ "ts1" ++ "\x7b\"challenge\": \"\"\x7d")),
                ("twitch-eventsub-message-type", "webhook_callback_verification")],
    body := "\x7b\"challenge\": \"\"\x7d" }

/-- The C8 witness request: challenge `"abc123"`, valid signature. -/
def reqC8ok : TwitchRequest :=
  { headers := [("twitch-eventsub-message-id", "id1"),
                ("twitch-eventsub-message-timestamp", "ts1"),
                ("twitch-eventsub-message-signature",
                  "sha256=" ++ getHmac "sec" ("id1" ++ "ts1" ++ "\x7b\"challenge\": \"abc123\"\x7d")),
                ("twitch-eventsub-message-type", "webhook_callback_verification")],
    body := "\x7b\"challenge\": \"abc123\"\x7d" }

/-- The C4 counterexample request: its signature header is the valid
signature for its id/timestamp/body with the leading 's' changed to 'X'
(same length, one character changed) — but its body is not JSON. -/
def reqC4bad : TwitchRequest :=
  { headers := [("twitch-eventsub-message-id", "id1"),
                ("twitch-eventsub-message-timestamp", "ts1"),
                ("twitch-eventsub-message-signature",
                  "Xha256=" ++ getHmac "sec" ("id1" ++ "ts1" ++ "x")),
                ("twitch-eventsub-message-type", "notification")],
    body := "x" }

/-- The C4 witness request: as `reqC4bad` but with a JSON body. -/
def reqC4ok : TwitchRequest :=
  { headers := [("twitch-eventsub-message-id", "id1"),
                ("twitch-eventsub-message-timestamp", "ts1"),
                ("twitch-eventsub-message-signature",
                  "Xha256=" ++ getHmac "sec" ("id1" ++ "ts1" ++ "\x7b\x7d")),
                ("twitch-eventsub-message-type", "notification")],
    body := "\x7b\x7d" }

/-! ## Registry well-formedness -/

/-- Well-formedness of a registry state: sets hold no duplicate handler
(as JS `Set`s), every mapped ref is allocated, and no two map entries
share a set object.  It holds for the empty registry and is preserved
by `on` and `unsubscribe` (shown below). -/
def RegistryWF (st : RegistryState) : Prop :=
  (∀ s ∈ st.heap, s.Nodup) ∧
  (∀ p ∈ st.map, p.2 < st.heap.length) ∧
  (st.map.map Prod.snd).Nodup

/-! ## Model sanity checks -/

example : Sha256.sha256 (utf8Bytes "abc") =
    [186, 120, 22, 191, 143, 1, 207, 234, 65, 65, 64, 222, 93, 174, 34, 35,
     176, 3, 97, 163, 150, 23, 122, 156, 180, 16, 255, 97, 242, 0, 21, 173] := by
  decide

example : stringifyError "Invalid JSON body" = "\x7b\"error\":\"Invalid JSON body\"\x7d" := by decide

example : jsonParse "\x7b\x7d" = some (.obj []) := rfl
example : jsonParse "not json" = none := rfl
example : jsonParse " \x7b\"challenge\": \"abc123\"\x7d " =
    some (.obj [("challenge", .str "abc123")]) := rfl
example : jsonParse "null" = some .null := rfl
example : jsonParse "\x7b\"a\": [1, true, \"x\"]\x7d" =
    some (.obj [("a", .arr [.num 1, .bool true, .str "x"])]) := rfl

example : getHmac "secret" "abc" =
    "9946dad4e00e913fc8be8e5d3f7e110a4a9e832f83fb09c345285d78638d8a0e" := by decide

/-! ## Toolkit lemmas -/

/-- `"sha256=" ++ r` is never the empty string. -/
theorem sha256_prefixed_ne_empty (r : String) : ("sha256=" ++ r) ≠ "" := by
  intro h
  have := congrArg String.length h
  simp [String.length_append] at this
  exact absurd this.1 (by decide)

/-- Comparing a string against itself verifies (named variant). -/
theorem verifyMessage_self (x : String) : WebhookHandler.verifyMessage x x = true := by
  simp [WebhookHandler.verifyMessage, timingSafeEqual]

/-- Comparing a string against itself verifies (unnamed variant). -/
theorem part000_verifyMessage_self (x : String) : Part000.verifyMessage x x = .ok true := by
  simp [Part000.verifyMessage, timingSafeEqual]

/-- UTF-8 encodes distinct characters to distinct byte runs. -/
theorem encodeChar_inj {c d : Char} (h : encodeChar c = encodeChar d) : c = d := by
  have hv : c.toNat = d.toNat := by
    unfold encodeChar at h
    simp only [] at h
    split_ifs at h <;> simp_all <;> omega
  calc c = Char.ofNat c.toNat := (Char.ofNat_toNat c).symm
    _ = Char.ofNat d.toNat := by rw [hv]
    _ = d := Char.ofNat_toNat d

/-- Changing one character of a string changes its UTF-8 bytes. -/
theorem utf8Bytes_flip_ne (l1 l2 : List Char) (c d : Char) (hne : c ≠ d) :
    utf8Bytes ⟨l1 ++ c :: l2⟩ ≠ utf8Bytes ⟨l1 ++ d :: l2⟩ := by
  intro h
  unfold utf8Bytes at h
  simp only [List.flatMap_append, List.flatMap_cons] at h
  exact hne (encodeChar_inj (List.append_cancel_right (List.append_cancel_left h)))

/-- The named variant's comparison rejects byte-distinct strings
(whether or not the lengths agree). -/
theorem verifyMessage_eq_false {a b : String} (h : utf8Bytes a ≠ utf8Bytes b) :
    WebhookHandler.verifyMessage a b = false := by
  unfold WebhookHandler.verifyMessage timingSafeEqual
  by_cases hl : (utf8Bytes a).length = (utf8Bytes b).length
  · simp [hl, h]
  · simp [hl]

/-- A string whose character list is given by an append-cons pattern is
nonempty. -/
theorem mk_append_cons_ne_empty (l1 l2 : List Char) (c : Char)
    (s : String) (h : s.data = l1 ++ c :: l2) : s ≠ "" := by
  intro e
  rw [e] at h
  exact absurd h.symm (by simp)

/-- Master lemma (named variant): with the four headers present and
truthy, a parsable body and a verifying signature, the handler reduces
to its message-type switch. -/
theorem handle_checked (reg : RegistryState) (req : TwitchRequest) (opts : TwitchWebhookOptions)
    (mid ts sigv mt : String) (bj : Json)
    (hid : headersGet req.headers "twitch-eventsub-message-id" = some mid)
    (hmid : mid ≠ "")
    (hts : headersGet req.headers "twitch-eventsub-message-timestamp" = some ts)
    (hts2 : ts ≠ "")
    (hsig : headersGet req.headers "twitch-eventsub-message-signature" = some sigv)
    (hsig2 : sigv ≠ "")
    (hmt : headersGet req.headers "twitch-eventsub-message-type" = some mt)
    (hmt2 : mt ≠ "")
    (hparse : jsonParse req.body = some bj)
    (hver : WebhookHandler.verifyMessage
      ("sha256=" ++ getHmac opts.secret (mid ++ ts ++ req.body)) sigv = true) :
    WebhookHandler.handleTwitchWebhook reg req opts =
      WebhookHandler.messageSwitch reg opts.handlers bj mt := by
  have e1 : (mid == "") = false := beq_eq_false_iff_ne.mpr hmid
  have e2 : (ts == "") = false := beq_eq_false_iff_ne.mpr hts2
  have e3 : (sigv == "") = false := beq_eq_false_iff_ne.mpr hsig2
  have e4 : (mt == "") = false := beq_eq_false_iff_ne.mpr hmt2
  unfold WebhookHandler.handleTwitchWebhook
  simp only [hid, hts, hsig, hmt, hparse, falsy, Option.getD_some, e1, e2, e3, e4,
    Bool.or_self, Bool.false_or, if_false, Bool.false_eq_true, hver, Bool.not_true,
    ite_false]

/-- Master lemma (unnamed variant): exactly as `handle_checked`. -/
theorem part000_handle_checked (reg : RegistryState) (req : TwitchRequest)
    (opts : TwitchWebhookOptions) (mid ts sigv mt : String) (bj : Json)
    (hid : headersGet req.headers "twitch-eventsub-message-id" = some mid)
    (hmid : mid ≠ "")
    (hts : headersGet req.headers "twitch-eventsub-message-timestamp" = some ts)
    (hts2 : ts ≠ "")
    (hsig : headersGet req.headers "twitch-eventsub-message-signature" = some sigv)
    (hsig2 : sigv ≠ "")
    (hmt : headersGet req.headers "twitch-eventsub-message-type" = some mt)
    (hmt2 : mt ≠ "")
    (hparse : jsonParse req.body = some bj)
    (hver : Part000.verifyMessage
      ("sha256=" ++ getHmac opts.secret (mid ++ ts ++ req.body)) sigv = .ok true) :
    Part000.handleTwitchWebhook reg req opts =
      Part000.messageSwitch reg opts.handlers bj mt := by
  have e1 : (mid == "") = false := beq_eq_false_iff_ne.mpr hmid
  have e2 : (ts == "") = false := beq_eq_false_iff_ne.mpr hts2
  have e3 : (sigv == "") = false := beq_eq_false_iff_ne.mpr hsig2
  have e4 : (mt == "") = false := beq_eq_false_iff_ne.mpr hmt2
  unfold Part000.handleTwitchWebhook
  simp only [hid, hts, hsig, hmt, hparse, falsy, Option.getD_some, e1, e2, e3, e4,
    Bool.or_self, Bool.false_or, if_false, hver, Bool.not_true,
    ite_false, Bool.false_eq_true]
  rfl

/-- `Except` bind on a success, as a rewrite rule. -/
theorem jsBind_ok {α β : Type} (a : α) (f : α → Except JsError β) :
    (Except.ok a : Except JsError α) >>= f = f a := rfl

/-- The notification case with the two property reads resolved: status
204, and the invocation log in dispatch order — the direct handler (or
the unknown-event fallback), then the registry's type-specific set, then
the registry's wildcard set. -/
theorem notificationCase_eq (reg : RegistryState) (hs : TwitchWebhookHandlers) (bj : Json)
    (sv et : JsValue)
    (hsub : getProp (.json bj) "subscription" = .ok sv)
    (htype : getProp sv "type" = .ok et) :
    notificationCase reg hs bj = .ok ({ status := 204 },
      (match hs.entries.lookup (toPropertyKey et) with
       | some h => [Invocation.direct h]
       | none => []) ++
      (if (hs.entries.lookup (toPropertyKey et)).isNone then
        (match hs.onUnknownEvent with
         | some h => [Invocation.unknownEvent h]
         | none => [])
       else []) ++
      (reg.getV et).map Invocation.registry ++
      (reg.get "*").map Invocation.registry) := by
  unfold notificationCase
  rw [hsub, jsBind_ok]
  rw [htype, jsBind_ok]
  rfl

/-- A value that is neither `undefined` nor `null` supports property
access. -/
theorem getProp_ok (v : JsValue) (k : String) (h1 : v ≠ .undefined)
    (h2 : v ≠ .json .null) : ∃ w, getProp v k = .ok w := by
  cases v with
  | undefined => exact absurd rfl h1
  | json j => cases j with
    | null => exact absurd rfl h2
    | bool b => exact ⟨_, rfl⟩
    | num q => exact ⟨_, rfl⟩
    | str s => exact ⟨_, rfl⟩
    | arr a => exact ⟨_, rfl⟩
    | obj f => exact ⟨_, rfl⟩

/-! ## Claims -/

/-- C1: for every inbound request whose four required headers are
present, whose body is valid JSON, whose signature is valid and whose
message-type header equals `"revocation"`, `handleTwitchWebhook`
(the variant that implements the `revocation` case, `src/unnamed/part_000`
lines 176–181) returns status 204, regardless of the body's content. -/
theorem c1_revocation_always_204 (reg : RegistryState) (req : TwitchRequest)
    (opts : TwitchWebhookOptions) (mid ts : String) (bj : Json)
    (hid : headersGet req.headers "twitch-eventsub-message-id" = some mid)
    (hmid : mid ≠ "")
    (hts : headersGet req.headers "twitch-eventsub-message-timestamp" = some ts)
    (hts2 : ts ≠ "")
    (hsig : headersGet req.headers "twitch-eventsub-message-signature" =
      some ("sha256=" ++ getHmac opts.secret (mid ++ ts ++ req.body)))
    (hmt : headersGet req.headers "twitch-eventsub-message-type" = some "revocation")
    (hparse : jsonParse req.body = some bj) :
    Part000.handleTwitchWebhook reg req opts = .ok ({ status := 204 }, []) := by
  rw [part000_handle_checked reg req opts mid ts _ "revocation" bj hid hmid hts hts2 hsig
    (sha256_prefixed_ne_empty _) hmt (by decide) hparse (part000_verifyMessage_self _)]
  rfl

/-- C1 witness: a concrete revocation request with a valid signature and
an arbitrary JSON body yields 204. -/
theorem c1_witness :
    Part000.handleTwitchWebhook RegistryState.empty
      { headers := [("twitch-eventsub-message-id", "mid1"),
                    ("twitch-eventsub-message-timestamp", "ts1"),
                    ("twitch-eventsub-message-signature",
                      "sha256=" ++ getHmac "sec" ("mid1" ++ "ts1" ++ "\x7b\"foo\": \"bar\"\x7d")),
                    ("twitch-eventsub-message-type", "revocation")],
        body := "\x7b\"foo\": \"bar\"\x7d" }
      { secret := "sec" } = .ok ({ status := 204 }, []) :=
  c1_revocation_always_204 _ _ _ "mid1" "ts1" (Json.obj [("foo", Json.str "bar")])
    rfl (by decide) rfl (by decide) rfl rfl rfl

/-- C3 counterexample: a notification-type request with a valid
signature over the raw body `"\x7b\x7d"` does not return 204 — reading
`notification.subscription.type` throws a `TypeError`, because the
parsed body has no `subscription` member. -/
theorem c3_counterexample :
    WebhookHandler.handleTwitchWebhook RegistryState.empty reqC3bad { secret := "sec" } =
      .error .typeError ∧
    ¬ ∃ log, WebhookHandler.handleTwitchWebhook RegistryState.empty reqC3bad
      { secret := "sec" } = .ok ({ status := 204 }, log) := by
  have he : WebhookHandler.handleTwitchWebhook RegistryState.empty reqC3bad
      { secret := "sec" } = .error .typeError := by
    rw [handle_checked RegistryState.empty reqC3bad { secret := "sec" } "id1" "ts1"
      ("sha256=" ++ getHmac "sec" ("id1" ++ "ts1" ++ "\x7b\x7d")) "notification"
      (Json.obj []) rfl (by decide) rfl (by decide) rfl (sha256_prefixed_ne_empty _)
      rfl (by decide) rfl (verifyMessage_self _)]
    rfl
  exact ⟨he, by rw [he]; rintro ⟨log, hlog⟩; exact absurd hlog (by simp)⟩

/-- C3 amended: for all (secret, messageId, timestamp, body) where the
signature header is `"sha256=" ++` the HMAC of `messageId ++ timestamp
++ body`, the headers are non-empty, and the body parses to JSON whose
`subscription` member is present and neither `undefined` nor `null`,
the notification-type request yields status 204. -/
theorem c3_valid_notification_204 (reg : RegistryState) (req : TwitchRequest)
    (opts : TwitchWebhookOptions) (mid ts : String) (bj : Json) (sv : JsValue)
    (hid : headersGet req.headers "twitch-eventsub-message-id" = some mid)
    (hmid : mid ≠ "")
    (hts : headersGet req.headers "twitch-eventsub-message-timestamp" = some ts)
    (hts2 : ts ≠ "")
    (hsig : headersGet req.headers "twitch-eventsub-message-signature" =
      some ("sha256=" ++ getHmac opts.secret (mid ++ ts ++ req.body)))
    (hmt : headersGet req.headers "twitch-eventsub-message-type" = some "notification")
    (hparse : jsonParse req.body = some bj)
    (hsub : getProp (.json bj) "subscription" = .ok sv)
    (hsv1 : sv ≠ .undefined)
    (hsv2 : sv ≠ .json .null) :
    ∃ log, WebhookHandler.handleTwitchWebhook reg req opts =
      .ok ({ status := 204 }, log) := by
  obtain ⟨et, het⟩ := getProp_ok sv "type" hsv1 hsv2
  exact ⟨_, by
    rw [handle_checked reg req opts mid ts _ "notification" bj hid hmid hts hts2 hsig
      (sha256_prefixed_ne_empty _) hmt (by decide) hparse (verifyMessage_self _)]
    exact notificationCase_eq reg opts.handlers bj sv et hsub het⟩

/-- C3 witness: a concrete validly-signed notification whose body has a
`subscription` object yields 204. -/
theorem c3_witness :
    ∃ log, WebhookHandler.handleTwitchWebhook RegistryState.empty
      { headers := [("twitch-eventsub-message-id", "id1"),
                    ("twitch-eventsub-message-timestamp", "ts1"),
                    ("twitch-eventsub-message-signature",
                      "sha256=" ++ getHmac "sec"
                        ("id1" ++ "ts1" ++ "\x7b\"subscription\": \x7b\"type\": \"channel.follow\"\x7d\x7d")),
                    ("twitch-eventsub-message-type", "notification")],
        body := "\x7b\"subscription\": \x7b\"type\": \"channel.follow\"\x7d\x7d" }
      { secret := "sec" } = .ok ({ status := 204 }, log) :=
  c3_valid_notification_204 _ _ _ "id1" "ts1"
    (Json.obj [("subscription", Json.obj [("type", Json.str "channel.follow")])])
    (.json (Json.obj [("type", Json.str "channel.follow")]))
    rfl (by decide) rfl (by decide) rfl rfl rfl rfl (by simp) (by simp)

/-- The verification case on a resolved `challenge` read: falsy → 400,
truthy → 200 echoing the value. -/
theorem verificationCase_eq (bj : Json) (ch : JsValue)
    (hch : getProp (.json bj) "challenge" = .ok ch) :
    verificationCase bj = (if !truthy ch then
      .ok ({ status := 400,
             body := errorBody "Missing challenge in verification request" }, [])
    else
      .ok ({ status := 200, headers := [("content-type", "text/plain")],
             body := some ch }, [])) := by
  unfold verificationCase
  rw [hch, jsBind_ok]
  rfl

/-- C8 counterexample: the parsed body has a challenge string (the empty
string), yet the handler returns 400 "Missing challenge", not 200 with
the challenge echoed — presence is tested by truthiness. -/
theorem c8_counterexample :
    getProp (.json (Json.obj [("challenge", Json.str "")])) "challenge" =
      .ok (.json (Json.str "")) ∧
    WebhookHandler.handleTwitchWebhook RegistryState.empty reqC8bad { secret := "sec" } =
      .ok ({ status := 400,
             body := errorBody "Missing challenge in verification request" }, []) := by
  refine ⟨rfl, ?_⟩
  rw [handle_checked RegistryState.empty reqC8bad { secret := "sec" } "id1" "ts1"
    ("sha256=" ++ getHmac "sec" ("id1" ++ "ts1" ++ "\x7b\"challenge\": \"\"\x7d"))
    "webhook_callback_verification" (Json.obj [("challenge", Json.str "")]) rfl (by decide)
    rfl (by decide) rfl (sha256_prefixed_ne_empty _) rfl (by decide) rfl
    (verifyMessage_self _)]
  rfl

/-- C8 amended: for every validly signed `webhook_callback_verification`
request: a *non-empty* challenge string is echoed back with status 200
and `content-type: text/plain`; if the challenge member is absent (its
read yields `undefined`), the handler returns 400 "Missing challenge". -/
theorem c8_verification_challenge (reg : RegistryState) (req : TwitchRequest)
    (opts : TwitchWebhookOptions) (mid ts : String) (bj : Json)
    (hid : headersGet req.headers "twitch-eventsub-message-id" = some mid)
    (hmid : mid ≠ "")
    (hts : headersGet req.headers "twitch-eventsub-message-timestamp" = some ts)
    (hts2 : ts ≠ "")
    (hsig : headersGet req.headers "twitch-eventsub-message-signature" =
      some ("sha256=" ++ getHmac opts.secret (mid ++ ts ++ req.body)))
    (hmt : headersGet req.headers "twitch-eventsub-message-type" =
      some "webhook_callback_verification")
    (hparse : jsonParse req.body = some bj) :
    (∀ s : String, getProp (.json bj) "challenge" = .ok (.json (.str s)) → s ≠ "" →
      WebhookHandler.handleTwitchWebhook reg req opts =
        .ok ({ status := 200, headers := [("content-type", "text/plain")],
               body := some (.json (.str s)) }, [])) ∧
    (getProp (.json bj) "challenge" = .ok .undefined →
      WebhookHandler.handleTwitchWebhook reg req opts =
        .ok ({ status := 400,
               body := errorBody "Missing challenge in verification request" }, [])) := by
  have hmaster := handle_checked reg req opts mid ts _ "webhook_callback_verification" bj
    hid hmid hts hts2 hsig (sha256_prefixed_ne_empty _) hmt (by decide) hparse
    (verifyMessage_self _)
  constructor
  · intro s hch hs
    rw [hmaster]
    show verificationCase bj = _
    rw [verificationCase_eq bj _ hch]
    simp [truthy, hs]
  · intro hch
    rw [hmaster]
    show verificationCase bj = _
    rw [verificationCase_eq bj _ hch]
    rfl

/-- C8 witness: the spec's own example — challenge `"abc123"` is echoed
verbatim with status 200 as `text/plain`. -/
theorem c8_witness :
    WebhookHandler.handleTwitchWebhook RegistryState.empty reqC8ok { secret := "sec" } =
      .ok ({ status := 200, headers := [("content-type", "text/plain")],
             body := some (.json (.str "abc123")) }, []) :=
  (c8_verification_challenge RegistryState.empty reqC8ok { secret := "sec" } "id1" "ts1"
    (Json.obj [("challenge", Json.str "abc123")])
    rfl (by decide) rfl (by decide) rfl rfl rfl).1 "abc123" rfl (by decide)

/-- C10: for every validly signed `webhook_callback_verification`
request whose parsed body contains a `challenge` member with a falsy
value (`""`, `0`, `false` or `null`), the handler returns 400 "Missing
challenge" rather than echoing the value — presence is tested by
truthiness, not key existence. -/
theorem c10_falsy_challenge_400 (reg : RegistryState) (req : TwitchRequest)
    (opts : TwitchWebhookOptions) (mid ts : String) (bj : Json) (v : Json)
    (hid : headersGet req.headers "twitch-eventsub-message-id" = some mid)
    (hmid : mid ≠ "")
    (hts : headersGet req.headers "twitch-eventsub-message-timestamp" = some ts)
    (hts2 : ts ≠ "")
    (hsig : headersGet req.headers "twitch-eventsub-message-signature" =
      some ("sha256=" ++ getHmac opts.secret (mid ++ ts ++ req.body)))
    (hmt : headersGet req.headers "twitch-eventsub-message-type" =
      some "webhook_callback_verification")
    (hparse : jsonParse req.body = some bj)
    (hch : getProp (.json bj) "challenge" = .ok (.json v))
    (hfalsy : truthy (.json v) = false) :
    WebhookHandler.handleTwitchWebhook reg req opts =
      .ok ({ status := 400,
             body := errorBody "Missing challenge in verification request" }, []) := by
  rw [handle_checked reg req opts mid ts _ "webhook_callback_verification" bj
    hid hmid hts hts2 hsig (sha256_prefixed_ne_empty _) hmt (by decide) hparse
    (verifyMessage_self _)]
  show verificationCase bj = _
  rw [verificationCase_eq bj _ hch, hfalsy]
  rfl

/-- C10 witness: challenge `0` (falsy, present) yields 400. -/
theorem c10_witness :
    WebhookHandler.handleTwitchWebhook RegistryState.empty
      { headers := [("twitch-eventsub-message-id", "id1"),
                    ("twitch-eventsub-message-timestamp", "ts1"),
                    ("twitch-eventsub-message-signature",
                      "sha256=" ++ getHmac "sec" ("id1" ++ "ts1" ++ "\x7b\"challenge\": 0\x7d")),
                    ("twitch-eventsub-message-type", "webhook_callback_verification")],
        body := "\x7b\"challenge\": 0\x7d" }
      { secret := "sec" } =
      .ok ({ status := 400,
             body := errorBody "Missing challenge in verification request" }, []) :=
  c10_falsy_challenge_400 _ _ _ "id1" "ts1" _ _
    rfl (by decide) rfl (by decide) rfl rfl rfl rfl (by decide)

/-- C6: with all four headers present (non-empty), an unparsable body
yields 400 "Invalid JSON body" regardless of the signature header's
value; and only after parsing succeeds is the signature compared — the
HMAC being computed over the raw body text `req.body`, never over the
parsed object — a mismatch then yielding 401. -/
theorem c6_parse_before_signature (reg : RegistryState) (req : TwitchRequest)
    (opts : TwitchWebhookOptions) (mid ts sigv mt : String)
    (hid : headersGet req.headers "twitch-eventsub-message-id" = some mid)
    (hmid : mid ≠ "")
    (hts : headersGet req.headers "twitch-eventsub-message-timestamp" = some ts)
    (hts2 : ts ≠ "")
    (hsig : headersGet req.headers "twitch-eventsub-message-signature" = some sigv)
    (hsig2 : sigv ≠ "")
    (hmt : headersGet req.headers "twitch-eventsub-message-type" = some mt)
    (hmt2 : mt ≠ "") :
    (jsonParse req.body = none →
      WebhookHandler.handleTwitchWebhook reg req opts =
        .ok ({ status := 400, body := errorBody "Invalid JSON body" }, []))
    ∧ (∀ bj : Json, jsonParse req.body = some bj →
        WebhookHandler.verifyMessage
          ("sha256=" ++ getHmac opts.secret (mid ++ ts ++ req.body)) sigv = false →
        WebhookHandler.handleTwitchWebhook reg req opts =
          .ok ({ status := 401, body := errorBody "Invalid signature" }, [])) := by
  have e1 : (mid == "") = false := beq_eq_false_iff_ne.mpr hmid
  have e2 : (ts == "") = false := beq_eq_false_iff_ne.mpr hts2
  have e3 : (sigv == "") = false := beq_eq_false_iff_ne.mpr hsig2
  have e4 : (mt == "") = false := beq_eq_false_iff_ne.mpr hmt2
  constructor
  · intro hparse
    unfold WebhookHandler.handleTwitchWebhook
    simp only [hid, hts, hsig, hmt, hparse, falsy, Option.getD_some, e1, e2, e3, e4,
      Bool.or_self, Bool.false_or, if_false, Bool.false_eq_true, ite_false]
  · intro bj hparse hver
    unfold WebhookHandler.handleTwitchWebhook
    simp only [hid, hts, hsig, hmt, hparse, hver, falsy, Option.getD_some, e1, e2, e3, e4,
      Bool.or_self, Bool.false_or, if_false, Bool.false_eq_true, Bool.not_false,
      ite_false, ite_true]

/-- C6 witness: body "not json" with all headers present yields 400
"Invalid JSON body" even with a garbage signature; and with a parsable
body, a non-matching signature yields 401. -/
theorem c6_witness :
    WebhookHandler.handleTwitchWebhook RegistryState.empty
      { headers := [("twitch-eventsub-message-id", "id1"),
                    ("twitch-eventsub-message-timestamp", "ts1"),
                    ("twitch-eventsub-message-signature", "deadbeef"),
                    ("twitch-eventsub-message-type", "notification")],
        body := "not json" }
      { secret := "sec" } =
      .ok ({ status := 400, body := errorBody "Invalid JSON body" }, []) ∧
    WebhookHandler.handleTwitchWebhook RegistryState.empty
      { headers := [("twitch-eventsub-message-id", "id1"),
                    ("twitch-eventsub-message-timestamp", "ts1"),
                    ("twitch-eventsub-message-signature", "deadbeef"),
                    ("twitch-eventsub-message-type", "notification")],
        body := "\x7b\x7d" }
      { secret := "sec" } =
      .ok ({ status := 401, body := errorBody "Invalid signature" }, []) :=
  ⟨(c6_parse_before_signature RegistryState.empty
      { headers := [("twitch-eventsub-message-id", "id1"),
                    ("twitch-eventsub-message-timestamp", "ts1"),
                    ("twitch-eventsub-message-signature", "deadbeef"),
                    ("twitch-eventsub-message-type", "notification")],
        body := "not json" }
      { secret := "sec" } "id1" "ts1" "deadbeef" "notification"
      rfl (by decide) rfl (by decide) rfl (by decide) rfl (by decide)).1 rfl,
   (c6_parse_before_signature RegistryState.empty
      { headers := [("twitch-eventsub-message-id", "id1"),
                    ("twitch-eventsub-message-timestamp", "ts1"),
                    ("twitch-eventsub-message-signature", "deadbeef"),
                    ("twitch-eventsub-message-type", "notification")],
        body := "\x7b\x7d" }
      { secret := "sec" } "id1" "ts1" "deadbeef" "notification"
      rfl (by decide) rfl (by decide) rfl (by decide) rfl (by decide)).2
      (Json.obj []) rfl (by decide)⟩

/-- C7: the header checks run in a fixed order with three distinct 400
errors: a missing (or empty) id or timestamp header is reported first,
whatever the other headers; then a missing signature header; then a
missing message-type header. -/
theorem c7_header_errors (reg : RegistryState) (req : TwitchRequest)
    (opts : TwitchWebhookOptions) :
    ((headersGet req.headers "twitch-eventsub-message-id" = none ∨
      headersGet req.headers "twitch-eventsub-message-timestamp" = none) →
      WebhookHandler.handleTwitchWebhook reg req opts =
        .ok ({ status := 400,
               body := errorBody "Missing required headers \"twitch-eventsub-message-id\" or \"twitch-eventsub-message-timestamp\"" }, []))
    ∧ (∀ mid ts mt : String,
        headersGet req.headers "twitch-eventsub-message-id" = some mid → mid ≠ "" →
        headersGet req.headers "twitch-eventsub-message-timestamp" = some ts → ts ≠ "" →
        headersGet req.headers "twitch-eventsub-message-signature" = none →
        headersGet req.headers "twitch-eventsub-message-type" = some mt → mt ≠ "" →
        WebhookHandler.handleTwitchWebhook reg req opts =
          .ok ({ status := 400,
                 body := errorBody "Missing required header \"twitch-eventsub-message-signature\"" }, []))
    ∧ (∀ mid ts sigv : String,
        headersGet req.headers "twitch-eventsub-message-id" = some mid → mid ≠ "" →
        headersGet req.headers "twitch-eventsub-message-timestamp" = some ts → ts ≠ "" →
        headersGet req.headers "twitch-eventsub-message-signature" = some sigv → sigv ≠ "" →
        headersGet req.headers "twitch-eventsub-message-type" = none →
        WebhookHandler.handleTwitchWebhook reg req opts =
          .ok ({ status := 400,
                 body := errorBody "Missing required header \"twitch-eventsub-message-type\"" }, []))
    ∧ stringifyError "Missing required headers \"twitch-eventsub-message-id\" or \"twitch-eventsub-message-timestamp\"" ≠
        stringifyError "Missing required header \"twitch-eventsub-message-signature\""
    ∧ stringifyError "Missing required header \"twitch-eventsub-message-signature\"" ≠
        stringifyError "Missing required header \"twitch-eventsub-message-type\""
    ∧ stringifyError "Missing required headers \"twitch-eventsub-message-id\" or \"twitch-eventsub-message-timestamp\"" ≠
        stringifyError "Missing required header \"twitch-eventsub-message-type\"" := by
  refine ⟨?_, ?_, ?_, by decide, by decide, by decide⟩
  · rintro (h | h) <;>
      (unfold WebhookHandler.handleTwitchWebhook
       simp only [h, falsy, Bool.true_or, Bool.or_true, ite_true, if_true])
  · intro mid ts mt h1 h2 h3 h4 h5 h6 h7
    have e1 : (mid == "") = false := beq_eq_false_iff_ne.mpr h2
    have e2 : (ts == "") = false := beq_eq_false_iff_ne.mpr h4
    unfold WebhookHandler.handleTwitchWebhook
    simp only [h1, h3, h5, h6, falsy, e1, e2, Bool.or_self, Bool.false_or,
      Bool.false_eq_true, if_false, ite_false, ite_true, if_true]
  · intro mid ts sigv h1 h2 h3 h4 h5 h6 h7
    have e1 : (mid == "") = false := beq_eq_false_iff_ne.mpr h2
    have e2 : (ts == "") = false := beq_eq_false_iff_ne.mpr h4
    have e3 : (sigv == "") = false := beq_eq_false_iff_ne.mpr h6
    unfold WebhookHandler.handleTwitchWebhook
    simp only [h1, h3, h5, h7, falsy, e1, e2, e3, Bool.or_self, Bool.false_or,
      Bool.false_eq_true, if_false, ite_false, ite_true, if_true]

/-- C7 witness: three concrete requests, one per missing header, get the
three distinct errors. -/
theorem c7_witness :
    WebhookHandler.handleTwitchWebhook RegistryState.empty
      { headers := [("twitch-eventsub-message-timestamp", "ts1")], body := "\x7b\x7d" }
      { secret := "sec" } =
      .ok ({ status := 400,
             body := errorBody "Missing required headers \"twitch-eventsub-message-id\" or \"twitch-eventsub-message-timestamp\"" }, []) ∧
    WebhookHandler.handleTwitchWebhook RegistryState.empty
      { headers := [("twitch-eventsub-message-id", "id1"),
                    ("twitch-eventsub-message-timestamp", "ts1"),
                    ("twitch-eventsub-message-type", "notification")], body := "\x7b\x7d" }
      { secret := "sec" } =
      .ok ({ status := 400,
             body := errorBody "Missing required header \"twitch-eventsub-message-signature\"" }, []) ∧
    WebhookHandler.handleTwitchWebhook RegistryState.empty
      { headers := [("twitch-eventsub-message-id", "id1"),
                    ("twitch-eventsub-message-timestamp", "ts1"),
                    ("twitch-eventsub-message-signature", "deadbeef")], body := "\x7b\x7d" }
      { secret := "sec" } =
      .ok ({ status := 400,
             body := errorBody "Missing required header \"twitch-eventsub-message-type\"" }, []) :=
  ⟨(c7_header_errors RegistryState.empty
      { headers := [("twitch-eventsub-message-timestamp", "ts1")], body := "\x7b\x7d" }
      { secret := "sec" }).1 (Or.inl rfl),
   (c7_header_errors RegistryState.empty
      { headers := [("twitch-eventsub-message-id", "id1"),
                    ("twitch-eventsub-message-timestamp", "ts1"),
                    ("twitch-eventsub-message-type", "notification")], body := "\x7b\x7d" }
      { secret := "sec" }).2.1 "id1" "ts1" "notification"
      rfl (by decide) rfl (by decide) rfl rfl (by decide),
   (c7_header_errors RegistryState.empty
      { headers := [("twitch-eventsub-message-id", "id1"),
                    ("twitch-eventsub-message-timestamp", "ts1"),
                    ("twitch-eventsub-message-signature", "deadbeef")], body := "\x7b\x7d" }
      { secret := "sec" }).2.2.1 "id1" "ts1" "deadbeef"
      rfl (by decide) rfl (by decide) rfl (by decide) rfl⟩

/-- C4 counterexample: a one-character change of a valid signature does
not always yield 401 — the JSON check runs first, so this request gets
400 "Invalid JSON body".  The first three conjuncts exhibit the
one-character-change decomposition of the two signatures. -/
theorem c4_counterexample :
    ("sha256=" ++ getHmac "sec" ("id1" ++ "ts1" ++ "x")).data =
      [] ++ 's' :: ("ha256=" ++ getHmac "sec" ("id1" ++ "ts1" ++ "x")).data ∧
    ("Xha256=" ++ getHmac "sec" ("id1" ++ "ts1" ++ "x")).data =
      [] ++ 'X' :: ("ha256=" ++ getHmac "sec" ("id1" ++ "ts1" ++ "x")).data ∧
    ('X' : Char) ≠ 's' ∧
    WebhookHandler.handleTwitchWebhook RegistryState.empty reqC4bad { secret := "sec" } =
      .ok ({ status := 400, body := errorBody "Invalid JSON body" }, []) := by
  refine ⟨rfl, rfl, by decide, ?_⟩
  have e : (("Xha256=" ++ getHmac "sec" ("id1" ++ "ts1" ++ "x")) == "") = false :=
    beq_eq_false_iff_ne.mpr
      (mk_append_cons_ne_empty [] ("ha256=" ++ getHmac "sec" ("id1" ++ "ts1" ++ "x")).data 'X' _ rfl)
  unfold WebhookHandler.handleTwitchWebhook
  simp only [show headersGet reqC4bad.headers "twitch-eventsub-message-id" = some "id1" from rfl,
    show headersGet reqC4bad.headers "twitch-eventsub-message-timestamp" = some "ts1" from rfl,
    show headersGet reqC4bad.headers "twitch-eventsub-message-signature" =
      some ("Xha256=" ++ getHmac "sec" ("id1" ++ "ts1" ++ "x")) from rfl,
    show headersGet reqC4bad.headers "twitch-eventsub-message-type" = some "notification" from rfl,
    show jsonParse reqC4bad.body = none from rfl,
    falsy, e, Option.getD_some, Bool.or_self, Bool.false_or, if_false,
    Bool.false_eq_true, ite_false]
  rfl

/-- C4 amended: for every request with the four required headers present
(non-empty) and a JSON-parsable body, a signature header obtained from
the valid signature by changing exactly one character (same length,
strings differ at that character) yields 401 with the "Invalid
signature" error body. -/
theorem c4_flipped_signature_401 (reg : RegistryState) (req : TwitchRequest)
    (opts : TwitchWebhookOptions) (mid ts mt sigv : String) (bj : Json)
    (l1 l2 : List Char) (c c0 : Char)
    (hid : headersGet req.headers "twitch-eventsub-message-id" = some mid)
    (hmid : mid ≠ "")
    (hts : headersGet req.headers "twitch-eventsub-message-timestamp" = some ts)
    (hts2 : ts ≠ "")
    (hsig : headersGet req.headers "twitch-eventsub-message-signature" = some sigv)
    (hmt : headersGet req.headers "twitch-eventsub-message-type" = some mt)
    (hmt2 : mt ≠ "")
    (hparse : jsonParse req.body = some bj)
    (hval : ("sha256=" ++ getHmac opts.secret (mid ++ ts ++ req.body)).data = l1 ++ c0 :: l2)
    (hflip : sigv.data = l1 ++ c :: l2)
    (hne : c ≠ c0) :
    WebhookHandler.handleTwitchWebhook reg req opts =
      .ok ({ status := 401, body := errorBody "Invalid signature" }, []) := by
  have hsigne : sigv ≠ "" := mk_append_cons_ne_empty l1 l2 c sigv hflip
  have hver : WebhookHandler.verifyMessage
      ("sha256=" ++ getHmac opts.secret (mid ++ ts ++ req.body)) sigv = false := by
    rw [String.ext hval, String.ext hflip]
    exact verifyMessage_eq_false (utf8Bytes_flip_ne l1 l2 c0 c (Ne.symm hne))
  have e1 : (mid == "") = false := beq_eq_false_iff_ne.mpr hmid
  have e2 : (ts == "") = false := beq_eq_false_iff_ne.mpr hts2
  have e3 : (sigv == "") = false := beq_eq_false_iff_ne.mpr hsigne
  have e4 : (mt == "") = false := beq_eq_false_iff_ne.mpr hmt2
  unfold WebhookHandler.handleTwitchWebhook
  simp only [hid, hts, hsig, hmt, hparse, hver, falsy, Option.getD_some, e1, e2, e3, e4,
    Bool.or_self, Bool.false_or, if_false, Bool.false_eq_true, Bool.not_false,
    ite_false, ite_true]

/-- C4 witness: flipping the first character of a concrete valid
signature yields 401. -/
theorem c4_witness :
    WebhookHandler.handleTwitchWebhook RegistryState.empty reqC4ok { secret := "sec" } =
      .ok ({ status := 401, body := errorBody "Invalid signature" }, []) :=
  c4_flipped_signature_401 RegistryState.empty reqC4ok { secret := "sec" }
    "id1" "ts1" "notification" ("Xha256=" ++ getHmac "sec" ("id1" ++ "ts1" ++ "\x7b\x7d"))
    (Json.obj []) [] ("ha256=" ++ getHmac "sec" ("id1" ++ "ts1" ++ "\x7b\x7d")).data 'X' 's'
    rfl (by decide) rfl (by decide) rfl rfl (by decide) rfl rfl rfl (by decide)

/-- C5: the named variant's `verifyMessage` is a total boolean function
(the try/catch turns the length-mismatch `RangeError` into `false`, so
it never raises): byte lengths differing forces `false`, and it returns
`true` exactly when the two strings' UTF-8 bytes are identical. -/
theorem c5_verifyMessage_total (a b : String) :
    ((utf8Bytes a).length ≠ (utf8Bytes b).length →
      WebhookHandler.verifyMessage a b = false)
    ∧ (WebhookHandler.verifyMessage a b = true ↔ utf8Bytes a = utf8Bytes b) := by
  constructor
  · intro h
    unfold WebhookHandler.verifyMessage timingSafeEqual
    simp [h]
  · unfold WebhookHandler.verifyMessage timingSafeEqual
    by_cases hl : (utf8Bytes a).length = (utf8Bytes b).length
    · simp [hl]
    · simp only [hl, if_false, Bool.false_eq_true, false_iff, ite_false]
      intro e
      exact hl (congrArg List.length e)

/-- C5 witness: two strings of different byte lengths compare to
`false` (no exception — the function is `Bool`-valued). -/
theorem c5_witness :
    (utf8Bytes "ab").length ≠ (utf8Bytes "c").length ∧
    WebhookHandler.verifyMessage "ab" "c" = false :=
  ⟨by decide, (c5_verifyMessage_total "ab" "c").1 (by decide)⟩

/-- C9: while dispatching a notification whose event type is the string
`t`, a registry handler is invoked iff it is registered under `t` itself
or under the wildcard key `"*"` — wildcard handlers in addition to (not
instead of) the type-specific ones, and never for any other key. -/
theorem c9_registry_dispatch (reg : RegistryState) (req : TwitchRequest)
    (opts : TwitchWebhookOptions) (mid ts t : String) (bj : Json) (sv : JsValue)
    (hid : headersGet req.headers "twitch-eventsub-message-id" = some mid)
    (hmid : mid ≠ "")
    (hts : headersGet req.headers "twitch-eventsub-message-timestamp" = some ts)
    (hts2 : ts ≠ "")
    (hsig : headersGet req.headers "twitch-eventsub-message-signature" =
      some ("sha256=" ++ getHmac opts.secret (mid ++ ts ++ req.body)))
    (hmt : headersGet req.headers "twitch-eventsub-message-type" = some "notification")
    (hparse : jsonParse req.body = some bj)
    (hsub : getProp (.json bj) "subscription" = .ok sv)
    (htype : getProp sv "type" = .ok (.json (.str t))) :
    ∃ log, WebhookHandler.handleTwitchWebhook reg req opts =
        .ok ({ status := 204 }, log) ∧
      ∀ h : Nat, (Invocation.registry h ∈ log ↔ h ∈ reg.get t ∨ h ∈ reg.get "*") := by
  refine ⟨(match opts.handlers.entries.lookup t with
           | some h => [Invocation.direct h]
           | none => []) ++
          (if (opts.handlers.entries.lookup t).isNone then
            (match opts.handlers.onUnknownEvent with
             | some h => [Invocation.unknownEvent h]
             | none => [])
           else []) ++
          (reg.get t).map Invocation.registry ++
          (reg.get "*").map Invocation.registry, ?_, ?_⟩
  · rw [handle_checked reg req opts mid ts _ "notification" bj hid hmid hts hts2 hsig
      (sha256_prefixed_ne_empty _) hmt (by decide) hparse (verifyMessage_self _)]
    exact notificationCase_eq reg opts.handlers bj sv (.json (.str t)) hsub htype
  · intro h
    rcases hl : opts.handlers.entries.lookup t with _ | dh <;>
      rcases hu : opts.handlers.onUnknownEvent with _ | uh <;>
        simp [hl, hu, List.mem_append, List.mem_map]

/-- C9 witness: with handler 7 registered for `channel.follow` and
handler 8 registered for the wildcard, a `channel.follow` notification
invokes exactly the handlers 7 and 8 among registry handlers. -/
theorem c9_witness :
    ∃ log, WebhookHandler.handleTwitchWebhook
      ((«on» ((«on» RegistryState.empty "channel.follow" 7).1) "*" 8).1)
      { headers := [("twitch-eventsub-message-id", "id1"),
                    ("twitch-eventsub-message-timestamp", "ts1"),
                    ("twitch-eventsub-message-signature",
                      "sha256=" ++ getHmac "sec"
                        ("id1" ++ "ts1" ++ "\x7b\"subscription\": \x7b\"type\": \"channel.follow\"\x7d\x7d")),
                    ("twitch-eventsub-message-type", "notification")],
        body := "\x7b\"subscription\": \x7b\"type\": \"channel.follow\"\x7d\x7d" }
      { secret := "sec" } = .ok ({ status := 204 }, log) ∧
      ∀ h : Nat, (Invocation.registry h ∈ log ↔
        h ∈ ((«on» ((«on» RegistryState.empty "channel.follow" 7).1) "*" 8).1).get "channel.follow" ∨
        h ∈ ((«on» ((«on» RegistryState.empty "channel.follow" 7).1) "*" 8).1).get "*") :=
  c9_registry_dispatch _ _ _ "id1" "ts1" "channel.follow"
    (Json.obj [("subscription", Json.obj [("type", Json.str "channel.follow")])])
    (.json (Json.obj [("type", Json.str "channel.follow")]))
    rfl (by decide) rfl (by decide) rfl rfl rfl rfl rfl

/-! ## Registry well-formedness and the `on`/`unsubscribe` contract -/

/-- `getD` of a one-element extension at the new index. -/
theorem regGetD_append_length (l : List (List Nat)) (x : List Nat) :
    (l ++ [x]).getD l.length [] = x := by
  induction l with
  | nil => rfl
  | cons a t ih => simpa using ih

/-- `getD` of a one-element extension below the new index. -/
theorem regGetD_append_lt (l : List (List Nat)) (x : List Nat) (i : Nat)
    (h : i < l.length) : (l ++ [x]).getD i [] = l.getD i [] := by
  induction l generalizing i with
  | nil => simp at h
  | cons a t ih =>
    cases i with
    | zero => rfl
    | succ j => simpa using ih j (by simpa using h)

/-- `getD` after `set` at the written index. -/
theorem regGetD_set_self (l : List (List Nat)) (i : Nat) (v : List Nat)
    (h : i < l.length) : (l.set i v).getD i [] = v := by
  induction l generalizing i with
  | nil => simp at h
  | cons a t ih =>
    cases i with
    | zero => rfl
    | succ j => simpa using ih j (by simpa using h)

/-- `getD` after `set` at another index. -/
theorem regGetD_set_ne (l : List (List Nat)) (i j : Nat) (v : List Nat)
    (h : j ≠ i) : (l.set i v).getD j [] = l.getD j [] := by
  induction l generalizing i j with
  | nil => rfl
  | cons a t ih =>
    cases i with
    | zero => cases j with
      | zero => exact absurd rfl h
      | succ j2 => rfl
    | succ i2 => cases j with
      | zero => rfl
      | succ j2 => simpa using ih i2 j2 (by omega)

/-- Writing back the value already present is the identity. -/
theorem regSet_getD_self (l : List (List Nat)) (i : Nat) :
    l.set i (l.getD i []) = l := by
  induction l generalizing i with
  | nil => rfl
  | cons a t ih =>
    cases i with
    | zero => rfl
    | succ j => simpa using ih j

/-- `Set.add` then `Set.delete` of the same element deletes it from the
original set (whether or not it was present). -/
theorem setAdd_erase (S : List Nat) (h : Nat) : (setAdd S h).erase h = S.erase h := by
  unfold setAdd
  by_cases hm : h ∈ S
  · simp [hm]
  · simp only [hm, if_false, ite_false]
    rw [List.erase_append_right _ hm, List.erase_of_not_mem hm]
    simp

/-- A fresh `Map.set` makes the key found with the new ref. -/
theorem mapLookup_mapSet_self (m : List (String × Nat)) (k : String) (r : Nat)
    (h : mapHas m k = false) : mapLookup (mapSet m k r) k = some r := by
  unfold mapSet mapLookup
  rw [h]
  simp only [Bool.false_eq_true, if_false, ite_false]
  induction m with
  | nil => simp [List.find?_cons]
  | cons p t ih =>
    unfold mapHas at h ih
    simp only [List.any_cons, Bool.or_eq_false_iff] at h
    simp only [List.cons_append, List.find?_cons, h.1, cond_false]
    exact ih h.2

/-- A present key's lookup succeeds. -/
theorem mapHas_lookup (m : List (String × Nat)) (k : String)
    (h : mapHas m k = true) : ∃ r, mapLookup m k = some r := by
  induction m with
  | nil => simp [mapHas] at h
  | cons p t ih =>
    unfold mapHas at h ih
    simp only [List.any_cons, Bool.or_eq_true] at h
    unfold mapLookup
    simp only [List.find?]
    by_cases hp : (p.1 == k) = true
    · rw [hp]; exact ⟨p.2, rfl⟩
    · rw [Bool.not_eq_true] at hp
      rw [hp]
      rcases h with h | h
      · rw [hp] at h; cases h
      · exact ih h

/-- A found entry is a member with the looked-up key and ref. -/
theorem mapLookup_mem (m : List (String × Nat)) (k : String) (r : Nat)
    (h : mapLookup m k = some r) : (k, r) ∈ m := by
  unfold mapLookup at h
  cases hf : m.find? (·.1 == k) with
  | none => rw [hf] at h; cases h
  | some p =>
    rw [hf] at h
    have hp := List.find?_some hf
    have hm := List.mem_of_find?_eq_some hf
    have h2 : p.2 = r := by simpa using h
    have h1 : p.1 = k := by simpa using hp
    rw [← h2, ← h1]
    exact hm

/-- Deleting a key removes it. -/
theorem mapHas_mapDelete (m : List (String × Nat)) (k : String) :
    mapHas (mapDelete m k) k = false := by
  unfold mapHas mapDelete
  induction m with
  | nil => rfl
  | cons p t ih =>
    by_cases hp : (p.1 == k) = true
    · simpa [hp] using ih
    · rw [Bool.not_eq_true] at hp
      simpa [hp] using ih

/-- An absent key's lookup fails. -/
theorem mapLookup_eq_none (m : List (String × Nat)) (k : String)
    (h : mapHas m k = false) : mapLookup m k = none := by
  unfold mapLookup
  cases hf : m.find? (·.1 == k) with
  | none => rfl
  | some p =>
    have hp := List.find?_some hf
    have hm := List.mem_of_find?_eq_some hf
    unfold mapHas at h
    have := List.any_eq_false.mp h p hm
    rw [hp] at this
    cases this rfl

/-- Deleting a key leaves other keys' lookups unchanged. -/
theorem mapLookup_mapDelete_ne (m : List (String × Nat)) (k k2 : String)
    (h : k2 ≠ k) : mapLookup (mapDelete m k) k2 = mapLookup m k2 := by
  unfold mapLookup mapDelete
  induction m with
  | nil => rfl
  | cons p t ih =>
    by_cases hp : (p.1 == k) = true
    · have hk : p.1 = k := by simpa using hp
      have hne : (p.1 == k2) = false := by
        simp only [beq_eq_false_iff_ne]
        rw [hk]
        exact fun e => h e.symm
      simp only [List.filter_cons, hp, Bool.not_true, List.find?_cons, hne,
        cond_false, if_false]
      exact ih
    · rw [Bool.not_eq_true] at hp
      simp only [List.filter_cons, hp, Bool.not_false, cond_true, List.find?_cons,
        if_true]
      cases hq : (p.1 == k2) with
      | false => simp only [cond_false]; exact ih
      | true => simp only [cond_true]

/-- Deleting a key twice is deleting it once. -/
theorem mapDelete_mapDelete (m : List (String × Nat)) (k : String) :
    mapDelete (mapDelete m k) k = mapDelete m k := by
  unfold mapDelete
  induction m with
  | nil => rfl
  | cons p t ih =>
    by_cases hp : (p.1 == k) = true
    · simpa [List.filter_cons, hp] using ih
    · rw [Bool.not_eq_true] at hp
      simpa [List.filter_cons, hp] using ih

/-- Appending a new key's entry leaves other keys' lookups unchanged. -/
theorem mapLookup_append_ne (m : List (String × Nat)) (k k2 : String) (r : Nat)
    (h : k2 ≠ k) : mapLookup (m ++ [(k, r)]) k2 = mapLookup m k2 := by
  unfold mapLookup
  induction m with
  | nil =>
    have hne : (k == k2) = false := by
      simp only [beq_eq_false_iff_ne]
      exact fun e => h e.symm
    simp only [List.nil_append, List.find?_cons, hne, cond_false]
  | cons p t ih =>
    simp only [List.cons_append, List.find?_cons]
    cases hq : (p.1 == k2) with
    | false => simp only [cond_false]; exact ih
    | true => simp only [cond_true]

/-- `mapSet` on an absent key appends the entry. -/
theorem mapSet_eq_append (m : List (String × Nat)) (k : String) (r : Nat)
    (h : mapHas m k = false) : mapSet m k r = m ++ [(k, r)] := by
  unfold mapSet
  rw [h]
  simp

/-- A successful lookup means the key is present. -/
theorem mapHas_of_lookup (m : List (String × Nat)) (k : String) (r : Nat)
    (h : mapLookup m k = some r) : mapHas m k = true := by
  have hm := mapLookup_mem m k r h
  unfold mapHas
  rw [List.any_eq_true]
  exact ⟨(k, r), hm, by simp⟩

/-- Shape of the state and closure produced by `on`: the key maps to a
set object `r` holding `setAdd S h` for a duplicate-free `S`, the map's
set objects stay pairwise distinct, and every other key still maps to a
different set object. -/
theorem on_shape (st : RegistryState) (k : String) (h : Nat) (hwf : RegistryWF st) :
    ∃ r S, («on» st k h).2 = ⟨r, k, h⟩ ∧
      mapLookup («on» st k h).1.map k = some r ∧
      r < («on» st k h).1.heap.length ∧
      heapGet («on» st k h).1.heap r = setAdd S h ∧
      S.Nodup ∧
      (∀ k2 r2, k2 ≠ k → mapLookup («on» st k h).1.map k2 = some r2 → r2 ≠ r) := by
  obtain ⟨hnd, hlt, hsnd⟩ := hwf
  unfold «on»
  by_cases hhas : mapHas st.map k = true
  · obtain ⟨r, hr⟩ := mapHas_lookup st.map k hhas
    have hmem := mapLookup_mem st.map k r hr
    have hrlt : r < st.heap.length := hlt (k, r) hmem
    simp only [hhas, if_true, ite_true, hr]
    refine ⟨r, heapGet st.heap r, rfl, rfl, ?_, ?_, ?_, ?_⟩
    · simpa [List.length_set] using hrlt
    · exact regGetD_set_self st.heap r _ hrlt
    · have : st.heap.getD r [] = st.heap[r] := List.getD_eq_getElem st.heap [] hrlt
      unfold heapGet
      rw [this]
      exact hnd _ (List.getElem_mem hrlt)
    · intro k2 r2 hk2 hl2
      intro e
      rw [e] at hl2
      have hmem2 := mapLookup_mem st.map k2 r hl2
      have := List.inj_on_of_nodup_map hsnd hmem2 hmem rfl
      exact hk2 (congrArg Prod.fst this)
  · rw [Bool.not_eq_true] at hhas
    have hset := mapSet_eq_append st.map k st.heap.length hhas
    have hlk : mapLookup (mapSet st.map k st.heap.length) k = some st.heap.length :=
      mapLookup_mapSet_self st.map k st.heap.length hhas
    simp only [hhas, Bool.false_eq_true, if_false, ite_false, hlk]
    have hinner : heapGet (st.heap ++ [[]]) st.heap.length = [] :=
      regGetD_append_length st.heap []
    refine ⟨st.heap.length, [], rfl, rfl, ?_, ?_, by simp, ?_⟩
    · simp [List.length_set, List.length_append]
    · unfold heapGet
      unfold heapGet at hinner
      rw [regGetD_set_self _ _ _ (by simp [List.length_append]), hinner]
    · intro k2 r2 hk2 hl2
      rw [hset, mapLookup_append_ne st.map k k2 _ hk2] at hl2
      have := hlt (k2, r2) (mapLookup_mem st.map k2 r2 hl2)
      omega

/-- C2 amended: for every well-formed registry state, `on(key, handler)`
returns a closure whose first invocation removes exactly that handler
from that key's set (other keys' sets unchanged), removes the key from
the registry exactly when its set becomes empty, and whose immediate
second invocation (no intervening registrations for that key) leaves the
registry unchanged. -/
theorem c2_on_unsubscribe_contract (st : RegistryState) (k : String) (h : Nat)
    (hwf : RegistryWF st) :
    ((unsubscribe («on» st k h).1 («on» st k h).2).get k =
        ((«on» st k h).1.get k).erase h) ∧
    (mapHas (unsubscribe («on» st k h).1 («on» st k h).2).map k =
        !(((«on» st k h).1.get k).erase h).isEmpty) ∧
    (∀ k2, k2 ≠ k →
      (unsubscribe («on» st k h).1 («on» st k h).2).get k2 = («on» st k h).1.get k2) ∧
    (unsubscribe (unsubscribe («on» st k h).1 («on» st k h).2) («on» st k h).2 =
        unsubscribe («on» st k h).1 («on» st k h).2) := by
  obtain ⟨r, S, hu, hlk, hrlt, hget, hSnd, hother⟩ := on_shape st k h hwf
  have hAget : («on» st k h).1.get k = setAdd S h := by
    unfold RegistryState.get
    rw [hlk]
    exact hget
  have herase : ((«on» st k h).1.get k).erase h = S.erase h := by
    rw [hAget]
    exact setAdd_erase S h
  have hnm : h ∉ S.erase h := hSnd.not_mem_erase
  have hs1 : unsubscribe («on» st k h).1 («on» st k h).2 =
      (if (S.erase h).length = 0 then
        ⟨(«on» st k h).1.heap.set r (S.erase h), mapDelete («on» st k h).1.map k⟩
       else ⟨(«on» st k h).1.heap.set r (S.erase h), («on» st k h).1.map⟩ :
        RegistryState) := by
    rw [hu]
    unfold unsubscribe
    dsimp only
    rw [show heapGet («on» st k h).1.heap r = setAdd S h from hget, setAdd_erase S h]
  by_cases hT : (S.erase h).length = 0
  · have hTnil : S.erase h = [] := List.length_eq_zero.mp hT
    rw [hs1, if_pos hT]
    refine ⟨?_, ?_, ?_, ?_⟩
    · rw [herase, hTnil]
      unfold RegistryState.get
      dsimp only
      rw [mapLookup_eq_none _ _ (mapHas_mapDelete _ k)]
    · rw [herase, hTnil]
      dsimp only
      rw [mapHas_mapDelete]
      rfl
    · intro k2 hk2
      unfold RegistryState.get
      dsimp only
      rw [mapLookup_mapDelete_ne _ _ _ hk2]
      cases hl2 : mapLookup («on» st k h).1.map k2 with
      | none => rfl
      | some r2 =>
        dsimp only
        exact regGetD_set_ne _ _ _ _ (hother k2 r2 hk2 hl2)
    · rw [hu]
      unfold unsubscribe
      dsimp only
      have hg : heapGet ((«on» st k h).1.heap.set r (S.erase h)) r = S.erase h :=
        regGetD_set_self _ _ _ (by simpa [List.length_set] using hrlt)
      rw [hg, List.erase_of_not_mem hnm, List.set_set, if_pos hT, mapDelete_mapDelete]
  · rw [hs1, if_neg hT]
    have hTz : (S.erase h).isEmpty = false := by
      cases hc : S.erase h with
      | nil => rw [hc] at hT; exact absurd rfl hT
      | cons a t => rfl
    refine ⟨?_, ?_, ?_, ?_⟩
    · rw [herase]
      unfold RegistryState.get
      dsimp only
      rw [hlk]
      exact regGetD_set_self _ _ _ hrlt
    · rw [herase]
      dsimp only
      rw [mapHas_of_lookup _ _ _ hlk, hTz]
      rfl
    · intro k2 hk2
      unfold RegistryState.get
      dsimp only
      cases hl2 : mapLookup («on» st k h).1.map k2 with
      | none => rfl
      | some r2 =>
        dsimp only
        exact regGetD_set_ne _ _ _ _ (hother k2 r2 hk2 hl2)
    · rw [hu]
      unfold unsubscribe
      dsimp only
      have hg : heapGet ((«on» st k h).1.heap.set r (S.erase h)) r = S.erase h :=
        regGetD_set_self _ _ _ (by simpa [List.length_set] using hrlt)
      rw [hg, List.erase_of_not_mem hnm, List.set_set, if_neg hT]

/-- `Set.add` preserves duplicate-freeness. -/
theorem setAdd_nodup (S : List Nat) (h : Nat) (hnd : S.Nodup) : (setAdd S h).Nodup := by
  unfold setAdd
  by_cases hm : h ∈ S
  · simpa [hm] using hnd
  · simp [hm, List.nodup_append, hnd]

/-- The empty registry is well-formed. -/
theorem registryWF_empty : RegistryWF RegistryState.empty := by
  refine ⟨?_, ?_, ?_⟩ <;> simp [RegistryState.empty]

/-- `on` preserves registry well-formedness. -/
theorem registryWF_on (st : RegistryState) (k : String) (h : Nat)
    (hwf : RegistryWF st) : RegistryWF («on» st k h).1 := by
  obtain ⟨hnd, hlt, hsnd⟩ := hwf
  unfold «on»
  by_cases hhas : mapHas st.map k = true
  · obtain ⟨r, hr⟩ := mapHas_lookup st.map k hhas
    simp only [hhas, if_true, ite_true, hr]
    refine ⟨?_, ?_, ?_⟩
    · intro s hs
      rcases List.mem_or_eq_of_mem_set hs with hs | hs
      · exact hnd s hs
      · rw [hs]
        refine setAdd_nodup _ _ ?_
        unfold heapGet
        rcases Nat.lt_or_ge r st.heap.length with hrl | hrl
        · rw [List.getD_eq_getElem st.heap [] hrl]
          exact hnd _ (List.getElem_mem hrl)
        · rw [List.getD_eq_default st.heap [] hrl]
          exact List.nodup_nil
    · intro p hp
      rw [List.length_set]
      exact hlt p hp
    · exact hsnd
  · rw [Bool.not_eq_true] at hhas
    have hset := mapSet_eq_append st.map k st.heap.length hhas
    have hlk2 : mapLookup (st.map ++ [(k, st.heap.length)]) k = some st.heap.length := by
      rw [← hset]
      exact mapLookup_mapSet_self st.map k st.heap.length hhas
    simp only [hhas, Bool.false_eq_true, if_false, ite_false, hset, hlk2]
    refine ⟨?_, ?_, ?_⟩
    · intro s hs
      rcases List.mem_or_eq_of_mem_set hs with hs | hs
      · rcases List.mem_append.mp hs with hs | hs
        · exact hnd s hs
        · simp only [List.mem_singleton] at hs
          rw [hs]
          exact List.nodup_nil
      · rw [hs]
        refine setAdd_nodup _ _ ?_
        unfold heapGet
        rw [regGetD_append_length]
        exact List.nodup_nil
    · intro p hp
      rw [List.length_set, List.length_append]
      rcases List.mem_append.mp hp with hp | hp
      · have := hlt p hp
        simp only [List.length_singleton]
        omega
      · simp only [List.mem_singleton] at hp
        rw [hp]
        simp
    · rw [List.map_append]
      simp only [List.map_cons, List.map_nil]
      rw [List.nodup_append]
      refine ⟨hsnd, List.nodup_singleton _, ?_⟩
      intro x hx
      simp only [List.mem_singleton]
      obtain ⟨p, hp, he⟩ := List.mem_map.mp hx
      have := hlt p hp
      omega

/-- `unsubscribe` preserves registry well-formedness. -/
theorem registryWF_unsubscribe (st : RegistryState) (u : Unsubscriber)
    (hwf : RegistryWF st) : RegistryWF (unsubscribe st u) := by
  obtain ⟨hnd, hlt, hsnd⟩ := hwf
  unfold unsubscribe
  dsimp only
  have hnd' : ∀ s ∈ st.heap.set u.ref ((heapGet st.heap u.ref).erase u.handler), s.Nodup := by
    intro s hs
    rcases List.mem_or_eq_of_mem_set hs with hs | hs
    · exact hnd s hs
    · rw [hs]
      refine List.Nodup.erase _ ?_
      unfold heapGet
      rcases Nat.lt_or_ge u.ref st.heap.length with hrl | hrl
      · rw [List.getD_eq_getElem st.heap [] hrl]
        exact hnd _ (List.getElem_mem hrl)
      · rw [List.getD_eq_default st.heap [] hrl]
        exact List.nodup_nil
  split
  · refine ⟨hnd', ?_, ?_⟩
    · intro p hp
      rw [List.length_set]
      have : p ∈ st.map := List.mem_of_mem_filter hp
      exact hlt p this
    · exact List.Nodup.sublist (List.Sublist.map Prod.snd (List.filter_sublist st.map)) hsnd
  · exact ⟨hnd', fun p hp => by rw [List.length_set]; exact hlt p hp, hsnd⟩

/-- C2 counterexample: register handler 0 for a key, unsubscribe it
(which empties the set and deletes the key), register handler 1 for the
same key, then call the *first* closure a second time: it deletes the
key again — destroying handler 1's registration — so the second call
does not leave the registry unchanged. -/
theorem c2_counterexample :
    (let p1 := «on» RegistryState.empty "channel.follow" 0
     let s1 := unsubscribe p1.1 p1.2
     let p2 := «on» s1 "channel.follow" 1
     p2.1.get "channel.follow" = [1] ∧
       unsubscribe p2.1 p1.2 ≠ p2.1 ∧
       (unsubscribe p2.1 p1.2).get "channel.follow" = []) := by
  decide

/-- C2 witness: the contract applied to the empty registry. -/
theorem c2_witness :
    RegistryWF RegistryState.empty ∧
    ((unsubscribe («on» RegistryState.empty "channel.follow" 5).1
        («on» RegistryState.empty "channel.follow" 5).2).get "channel.follow" =
      ((«on» RegistryState.empty "channel.follow" 5).1.get "channel.follow").erase 5) ∧
    (mapHas (unsubscribe («on» RegistryState.empty "channel.follow" 5).1
        («on» RegistryState.empty "channel.follow" 5).2).map "channel.follow" =
      !(((«on» RegistryState.empty "channel.follow" 5).1.get "channel.follow").erase 5).isEmpty) ∧
    (∀ k2, k2 ≠ "channel.follow" →
      (unsubscribe («on» RegistryState.empty "channel.follow" 5).1
        («on» RegistryState.empty "channel.follow" 5).2).get k2 =
      («on» RegistryState.empty "channel.follow" 5).1.get k2) ∧
    (unsubscribe (unsubscribe («on» RegistryState.empty "channel.follow" 5).1
        («on» RegistryState.empty "channel.follow" 5).2)
        («on» RegistryState.empty "channel.follow" 5).2 =
      unsubscribe («on» RegistryState.empty "channel.follow" 5).1
        («on» RegistryState.empty "channel.follow" 5).2) :=
  ⟨registryWF_empty,
   c2_on_unsubscribe_contract RegistryState.empty "channel.follow" 5 registryWF_empty⟩
